import Mathlib

/-!
Verification of the PostGIS custom-resource provisioner
(`src/lambda/postgis_provisioner.py` in torgus/cloudformation-postgis).

The Python handler is embedded shallowly:

* `Event` / `ResourceProps` mirror the CloudFormation event dictionary.
  Each of the four resource properties is an `Option String`, because the
  Python code indexes `event["ResourceProperties"][...]` and a missing key
  raises `KeyError`.
* `create` is the Python `create(event, context)` function, written as a
  deterministic interpreter that is parameterised by the behaviour of the
  external database: `connectOk` says whether `psycopg2.connect` succeeds,
  `exec1` gives the result of `cur.execute` on each statement over a
  session state `σ`, and `commitOk` says whether `conn.commit` succeeds.
  It returns the raised error (if any), the ordered trace of observable
  effects (prints, the connection attempt, cursor creation, each executed
  statement, the commit call, and the resource releases), and the durable
  database state (the session state if the transaction committed, the
  initial state otherwise).
* `ddlSequence` is the fixed list of nine SQL statements issued by
  `create`, in source order.
* `execStmt` interprets those statements over a catalog state `DbState`,
  following standard PostgreSQL semantics: `CREATE EXTENSION` fails if the
  extension is already installed (no `IF NOT EXISTS` in the source),
  `ALTER SCHEMA ... OWNER TO` requires the schema to exist, `CREATE
  FUNCTION exec(text)` fails if already defined, and the `SELECT
  exec('ALTER TABLE ...')` enumeration reassigns every relation of kind
  'r' (table), 'S' (sequence) or 'v' (view) in the `tiger` and `topology`
  schemas to `rds_superuser` (the `ORDER BY relkind = 'S'` clause only
  orders the dynamic statements and does not affect the final owners).
* `cfn_handler` is the dispatcher. The real dispatcher lives in the
  imported `crhelper` module, which is not part of the repository sources,
  so it is modelled from the spec (see its doc comment).
-/

/-- The `ResourceProperties` mapping of the event. A `none` field models a
key that is absent from the Python dictionary. -/
structure ResourceProps where
  dbName : Option String
  username : Option String
  password : Option String
  host : Option String
deriving DecidableEq, Repr

/-- A CloudFormation lifecycle event: `RequestType` plus `ResourceProperties`. -/
structure Event where
  requestType : String
  resourceProperties : ResourceProps
deriving DecidableEq, Repr

/-- The nine SQL statements of `create`, identified by their content. -/
inductive SqlStmt where
  | createExtension (name : String)
  | alterSchemaOwner (schema role : String)
  | createExecFunction
  | reassignRelOwners
deriving DecidableEq, Repr

/-- Errors a statement can raise inside the database session. -/
inductive SqlError where
  | extensionExists
  | undefinedSchema
  | duplicateFunction
  | undefinedFunction
  | permissionDenied
deriving DecidableEq, Repr

/-- Errors raised by the Python `create` function: the explicit
`raise ConnectionError(...)` in the connection block (which also catches the
`KeyError` of a missing resource property, since the `except:` clause is
bare), and the `raise Exception(...)` of the DDL block, which the spec calls
`ProvisioningError`. -/
inductive PyError where
  | connectionError
  | provisioningError
deriving DecidableEq, Repr

/-- Observable effects of one `create` run, in order of occurrence. -/
inductive Effect where
  | printedEvent (ev : Event)
  | connectAttempt (dbname user password host : String)
  | cursorCreated
  | executed (st : SqlStmt)
  | execFailed (st : SqlStmt) (e : SqlError)
  | committed
  | cursorClosed
  | connClosed
  | printedSuccess
deriving DecidableEq, Repr

/-- Outcome of one `create` run over session-state type `σ`. -/
structure CreateRun (σ : Type) where
  result : Except PyError Unit
  trace : List Effect
  dbFinal : σ

/-- The fixed statement sequence of `create`, in source order:
four `CREATE EXTENSION`s, three `ALTER SCHEMA ... OWNER TO rds_superuser;`,
the `CREATE FUNCTION exec(text) ...` helper, and the `SELECT exec('ALTER
TABLE ...')` ownership enumeration. -/
def ddlSequence : List SqlStmt :=
  [SqlStmt.createExtension "postgis",
   SqlStmt.createExtension "fuzzystrmatch",
   SqlStmt.createExtension "postgis_tiger_geocoder",
   SqlStmt.createExtension "postgis_topology",
   SqlStmt.alterSchemaOwner "tiger" "rds_superuser",
   SqlStmt.alterSchemaOwner "tiger_data" "rds_superuser",
   SqlStmt.alterSchemaOwner "topology" "rds_superuser",
   SqlStmt.createExecFunction,
   SqlStmt.reassignRelOwners]

/-- The `try:` block of `cur.execute` calls: run statements in order until
one fails, recording an effect per attempt. Returns the trace together with
either the final session state or the first error. -/
def runStmts {σ : Type} (exec1 : SqlStmt → σ → Except SqlError σ) :
    List SqlStmt → σ → List Effect × Except SqlError σ
  | [], s => ([], Except.ok s)
  | st :: rest, s =>
    match exec1 st s with
    | Except.ok s2 =>
      let r := runStmts exec1 rest s2
      (Effect.executed st :: r.1, r.2)
    | Except.error e => ([Effect.execFailed st e], Except.error e)

/-- The Python `create(event, context)` function.

Control flow mirrored from the source: `print(event)` first; then the
`try: conn = psycopg2.connect(dbname=..., user=..., password=..., host=...)`
block, whose bare `except:` turns both a missing-property `KeyError`
(raised while evaluating the keyword arguments, before any connection
attempt) and a connection failure into `ConnectionError`; then
`cur = conn.cursor()`; then the `try:` block running the nine statements
and `conn.commit()`, whose bare `except:` raises `Exception`
(`ProvisioningError`), with a `finally:` that always runs `cur.close()`
and `conn.close()`; finally the success print. The durable state is the
session state only if the commit call succeeded. -/
def create {σ : Type} (exec1 : SqlStmt → σ → Except SqlError σ)
    (connectOk commitOk : Bool) (ev : Event) (s0 : σ) : CreateRun σ :=
  match ev.resourceProperties.dbName, ev.resourceProperties.username,
        ev.resourceProperties.password, ev.resourceProperties.host with
  | some dbn, some usr, some pwd, some hst =>
    if connectOk then
      let run := runStmts exec1 ddlSequence s0
      match run.2 with
      | Except.ok s1 =>
        if commitOk then
          { result := Except.ok ()
            trace := Effect.printedEvent ev :: Effect.connectAttempt dbn usr pwd hst ::
              Effect.cursorCreated :: (run.1 ++
                [Effect.committed, Effect.cursorClosed, Effect.connClosed,
                 Effect.printedSuccess])
            dbFinal := s1 }
        else
          { result := Except.error PyError.provisioningError
            trace := Effect.printedEvent ev :: Effect.connectAttempt dbn usr pwd hst ::
              Effect.cursorCreated :: (run.1 ++
                [Effect.committed, Effect.cursorClosed, Effect.connClosed])
            dbFinal := s0 }
      | Except.error _ =>
          { result := Except.error PyError.provisioningError
            trace := Effect.printedEvent ev :: Effect.connectAttempt dbn usr pwd hst ::
              Effect.cursorCreated :: (run.1 ++
                [Effect.cursorClosed, Effect.connClosed])
            dbFinal := s0 }
    else
      { result := Except.error PyError.connectionError
        trace := [Effect.printedEvent ev, Effect.connectAttempt dbn usr pwd hst]
        dbFinal := s0 }
  | _, _, _, _ =>
      { result := Except.error PyError.connectionError
        trace := [Effect.printedEvent ev]
        dbFinal := s0 }

/-- The Python `update(event, context)` function: `return` — no effect. -/
def update (ev : Event) : List Effect := []

/-- The Python `delete(event, context)` function: `return` — no effect. -/
def delete (ev : Event) : List Effect := []

/-- Error taxonomy of the spec for reported failures. -/
inductive ErrKind where
  | invalidProperties
  | connectionError
  | provisioningError
  | unsupportedOperation
deriving DecidableEq, Repr

/-- The status reported back to CloudFormation for one event. -/
structure ProvisioningResult where
  success : Bool
  error : Option ErrKind
deriving DecidableEq, Repr

/-- How a raised handler error is reported. -/
def pyErrorToKind : PyError → ErrKind
  | PyError.connectionError => ErrKind.connectionError
  | PyError.provisioningError => ErrKind.provisioningError

/-- Modelled from the spec: `crhelper.cfn_handler`, the lifecycle
dispatcher invoked by `lambda_handler`. The `crhelper` module is imported
by the source but is not part of the repository, so this follows the spec:
dispatch on `RequestType`; `Create` runs the create provisioner and
reports success or the raised error as a failed result; `Update` and
`Delete` run the no-op handlers and always succeed; any other kind fails
with `UnsupportedOperation` without invoking a handler. Exactly one
result is reported per event. -/
def cfn_handler {σ : Type} (exec1 : SqlStmt → σ → Except SqlError σ)
    (connectOk commitOk : Bool) (ev : Event) (s0 : σ) :
    ProvisioningResult × List Effect × σ :=
  if ev.requestType = "Create" then
    let r := create exec1 connectOk commitOk ev s0
    match r.result with
    | Except.ok _ => ({ success := true, error := none }, r.trace, r.dbFinal)
    | Except.error e =>
        ({ success := false, error := some (pyErrorToKind e) }, r.trace, r.dbFinal)
  else if ev.requestType = "Update" then
    ({ success := true, error := none }, update ev, s0)
  else if ev.requestType = "Delete" then
    ({ success := true, error := none }, delete ev, s0)
  else
    ({ success := false, error := some ErrKind.unsupportedOperation }, [], s0)

/-- A row of `pg_class` joined with `pg_namespace`: schema name, relation
name, relation kind, owner. -/
structure PgRel where
  nspname : String
  relname : String
  relkind : Char
  relowner : String
deriving DecidableEq, Repr

/-- The database catalog state seen by one session. -/
structure DbState where
  extensions : List String
  schemaOwner : String → Option String
  rels : List PgRel
  execDefined : Bool

/-- What installing a given extension adds to the catalog. -/
structure ExtensionDef where
  newSchemas : String → Option String
  newRels : List PgRel

/-- Relation kinds targeted by the ownership enumeration:
`relkind IN ('r','S','v')` — tables, sequences, views. -/
def ownedKinds : List Char := ['r', 'S', 'v']

/-- The effect of one dynamic `ALTER TABLE s.r OWNER TO rds_superuser;`
statement on a catalog row: rows of the `tiger` and `topology` schemas
with kind in `ownedKinds` get owner `rds_superuser`; other rows are
untouched (`WHERE nspname in ('tiger','topology') AND relkind IN
('r','S','v')`). -/
def reassignRel (r : PgRel) : PgRel :=
  if (r.nspname = "tiger" ∨ r.nspname = "topology") ∧ r.relkind ∈ ownedKinds then
    { r with relowner := "rds_superuser" }
  else r

/-- Semantics of the nine statements over the catalog. -/
def execStmt (cat : String → ExtensionDef) : SqlStmt → DbState → Except SqlError DbState
  | SqlStmt.createExtension name, d =>
    if name ∈ d.extensions then Except.error SqlError.extensionExists
    else Except.ok
      { d with
        extensions := name :: d.extensions
        schemaOwner := fun x =>
          match (cat name).newSchemas x with
          | some o => some o
          | none => d.schemaOwner x
        rels := d.rels ++ (cat name).newRels }
  | SqlStmt.alterSchemaOwner s role, d =>
    if (d.schemaOwner s).isSome then
      Except.ok
        { d with schemaOwner := fun x => if x = s then some role else d.schemaOwner x }
    else Except.error SqlError.undefinedSchema
  | SqlStmt.createExecFunction, d =>
    if d.execDefined then Except.error SqlError.duplicateFunction
    else Except.ok { d with execDefined := true }
  | SqlStmt.reassignRelOwners, d =>
    if d.execDefined then Except.ok { d with rels := d.rels.map reassignRel }
    else Except.error SqlError.undefinedFunction

/-- Project the successfully executed statements out of a trace. -/
def isExecuted : Effect → Option SqlStmt
  | Effect.executed st => some st
  | _ => none

/-- The successfully executed statements of a trace, in order. -/
def executedOf (tr : List Effect) : List SqlStmt := tr.filterMap isExecuted

/-- Whether an effect is the `conn.commit()` call. -/
def isCommit : Effect → Bool
  | Effect.committed => true
  | _ => false

/-- How many times `conn.commit()` was called in a trace. -/
def commitCount (tr : List Effect) : Nat := tr.countP isCommit

/-! ### Trace bookkeeping lemmas -/

@[simp]
theorem executedOf_nil : executedOf [] = [] := rfl

@[simp]
theorem executedOf_cons (e : Effect) (tr : List Effect) :
    executedOf (e :: tr) =
      match isExecuted e with
      | some st => st :: executedOf tr
      | none => executedOf tr := by
  simp [executedOf, List.filterMap_cons]
  cases isExecuted e <;> simp

@[simp]
theorem executedOf_append (t1 t2 : List Effect) :
    executedOf (t1 ++ t2) = executedOf t1 ++ executedOf t2 := by
  simp [executedOf, List.filterMap_append]

@[simp]
theorem commitCount_nil : commitCount [] = 0 := rfl

@[simp]
theorem commitCount_cons (e : Effect) (tr : List Effect) :
    commitCount (e :: tr) = commitCount tr + (if isCommit e then 1 else 0) := by
  simp [commitCount, List.countP_cons]

@[simp]
theorem commitCount_append (t1 t2 : List Effect) :
    commitCount (t1 ++ t2) = commitCount t1 + commitCount t2 := by
  simp [commitCount, List.countP_append]

/-! ### Lemmas about the statement loop -/

theorem runStmts_commitCount {σ : Type} (exec1 : SqlStmt → σ → Except SqlError σ) :
    ∀ (l : List SqlStmt) (s : σ), commitCount (runStmts exec1 l s).1 = 0 := by
  intro l
  induction l with
  | nil => intro s; rfl
  | cons st rest ih =>
    intro s
    cases h : exec1 st s with
    | ok s2 => simp [runStmts, h, isCommit, ih s2]
    | error e => simp [runStmts, h, isCommit]

theorem runStmts_executedOf_isPrefix {σ : Type} (exec1 : SqlStmt → σ → Except SqlError σ) :
    ∀ (l : List SqlStmt) (s : σ), executedOf (runStmts exec1 l s).1 <+: l := by
  intro l
  induction l with
  | nil => intro s; simp [runStmts]
  | cons st rest ih =>
    intro s
    cases h : exec1 st s with
    | ok s2 =>
      obtain ⟨t, ht⟩ := ih s2
      exact ⟨t, by simp [runStmts, h, isExecuted, ht]⟩
    | error e =>
      exact ⟨st :: rest, by simp [runStmts, h, isExecuted]⟩

theorem runStmts_ok_iff {σ : Type} (exec1 : SqlStmt → σ → Except SqlError σ) :
    ∀ (l : List SqlStmt) (s : σ),
      (∃ s1, (runStmts exec1 l s).2 = Except.ok s1) ↔
        executedOf (runStmts exec1 l s).1 = l := by
  intro l
  induction l with
  | nil => intro s; simp [runStmts]
  | cons st rest ih =>
    intro s
    cases h : exec1 st s with
    | ok s2 => simpa [runStmts, h, isExecuted] using ih s2
    | error e => simp [runStmts, h, isExecuted]

theorem runStmts_append_ok {σ : Type} (exec1 : SqlStmt → σ → Except SqlError σ) :
    ∀ (l1 l2 : List SqlStmt) (s s2 : σ),
      (runStmts exec1 (l1 ++ l2) s).2 = Except.ok s2 →
      ∃ sm, (runStmts exec1 l1 s).2 = Except.ok sm ∧
        (runStmts exec1 l2 sm).2 = Except.ok s2 := by
  intro l1
  induction l1 with
  | nil => intro l2 s s2 h; exact ⟨s, rfl, h⟩
  | cons st rest ih =>
    intro l2 s s2 h
    cases hst : exec1 st s with
    | ok sa =>
      simp only [List.cons_append, runStmts, hst] at h ⊢
      exact ih l2 sa s2 h
    | error e =>
      simp only [List.cons_append, runStmts, hst] at h
      exact absurd h (by simp)

/-! ### Concrete inputs used by witnesses and counterexamples -/

/-- A fully populated Create event (the end-to-end scenario of the spec). -/
def evFull : Event :=
  { requestType := "Create"
    resourceProperties :=
      { dbName := some "gis", username := some "admin",
        password := some "secret", host := some "db.example.internal" } }

/-- A database stub in which every statement succeeds. -/
def execAllOk : SqlStmt → Unit → Except SqlError Unit := fun _ s => Except.ok s

/-- C1: on a Create event whose connection succeeds, the executed DDL
statements form a prefix of the fixed nine-statement sequence (the fixed
order); when all nine succeed, `conn.commit()` is called exactly once,
after the ninth statement; when they do not all succeed, commit is never
called. -/
theorem create_nine_ddl_commit_once {σ : Type}
    (exec1 : SqlStmt → σ → Except SqlError σ) (commitOk : Bool) (ev : Event) (s0 : σ)
    (dbn usr pwd hst : String)
    (hdb : ev.resourceProperties.dbName = some dbn)
    (hus : ev.resourceProperties.username = some usr)
    (hpw : ev.resourceProperties.password = some pwd)
    (hho : ev.resourceProperties.host = some hst) :
    executedOf (create exec1 true commitOk ev s0).trace <+: ddlSequence ∧
    (executedOf (create exec1 true commitOk ev s0).trace = ddlSequence →
      ∃ pre post,
        (create exec1 true commitOk ev s0).trace = pre ++ Effect.committed :: post ∧
        executedOf pre = ddlSequence ∧ commitCount pre = 0 ∧ commitCount post = 0) ∧
    (executedOf (create exec1 true commitOk ev s0).trace ≠ ddlSequence →
      commitCount (create exec1 true commitOk ev s0).trace = 0) := by
  cases hrun : (runStmts exec1 ddlSequence s0).2 with
  | ok s1 =>
    have hexe : executedOf (runStmts exec1 ddlSequence s0).1 = ddlSequence :=
      (runStmts_ok_iff exec1 ddlSequence s0).mp ⟨s1, hrun⟩
    have hcc := runStmts_commitCount exec1 ddlSequence s0
    cases commitOk with
    | true =>
      simp only [create, hdb, hus, hpw, hho, hrun, if_true]
      refine ⟨by simp [isExecuted, hexe], fun _ => ?_,
        fun hne => absurd (by simp [isExecuted, hexe]) hne⟩
      refine ⟨Effect.printedEvent ev :: Effect.connectAttempt dbn usr pwd hst ::
        Effect.cursorCreated :: (runStmts exec1 ddlSequence s0).1,
        [Effect.cursorClosed, Effect.connClosed, Effect.printedSuccess], ?_, ?_, ?_, ?_⟩
      · simp
      · simp [isExecuted, hexe]
      · simp [isCommit, hcc]
      · simp [isCommit]
    | false =>
      simp only [create, hdb, hus, hpw, hho, hrun, if_true, Bool.false_eq_true, if_false]
      refine ⟨by simp [isExecuted, hexe], fun _ => ?_,
        fun hne => absurd (by simp [isExecuted, hexe]) hne⟩
      refine ⟨Effect.printedEvent ev :: Effect.connectAttempt dbn usr pwd hst ::
        Effect.cursorCreated :: (runStmts exec1 ddlSequence s0).1,
        [Effect.cursorClosed, Effect.connClosed], ?_, ?_, ?_, ?_⟩
      · simp
      · simp [isExecuted, hexe]
      · simp [isCommit, hcc]
      · simp [isCommit]
  | error e =>
    have hne : executedOf (runStmts exec1 ddlSequence s0).1 ≠ ddlSequence := by
      intro hx
      obtain ⟨s1, hs1⟩ := (runStmts_ok_iff exec1 ddlSequence s0).mpr hx
      rw [hrun] at hs1
      exact absurd hs1 (by simp)
    have hcc := runStmts_commitCount exec1 ddlSequence s0
    have hpre := runStmts_executedOf_isPrefix exec1 ddlSequence s0
    simp only [create, hdb, hus, hpw, hho, hrun, if_true]
    refine ⟨?_, ?_, ?_⟩
    · simpa [isExecuted] using hpre
    · intro hx
      exact absurd (by simpa [isExecuted] using hx) hne
    · intro _
      simp [isExecuted, isCommit, hcc]

/-- Witness for C1: the all-statements-succeed stub at the concrete event. -/
theorem create_nine_ddl_commit_once_witness :
    executedOf (create execAllOk true true evFull ()).trace <+: ddlSequence ∧
    (executedOf (create execAllOk true true evFull ()).trace = ddlSequence →
      ∃ pre post,
        (create execAllOk true true evFull ()).trace = pre ++ Effect.committed :: post ∧
        executedOf pre = ddlSequence ∧ commitCount pre = 0 ∧ commitCount post = 0) ∧
    (executedOf (create execAllOk true true evFull ()).trace ≠ ddlSequence →
      commitCount (create execAllOk true true evFull ()).trace = 0) :=
  create_nine_ddl_commit_once execAllOk true evFull () "gis" "admin" "secret"
    "db.example.internal" rfl rfl rfl rfl

/-- A database stub in which every statement fails with a permission error. -/
def execAllFail : SqlStmt → Unit → Except SqlError Unit :=
  fun _ _ => Except.error SqlError.permissionDenied

/-- C2: if any of the nine DDL statements fails, `create` raises
`ProvisioningError` (the Python `Exception`), never calls `conn.commit()`,
leaves the durable state unchanged (transaction uncommitted), still closes
the cursor and the connection, and the dispatcher reports the event as a
failed result. -/
theorem create_ddl_failure_not_committed {σ : Type}
    (exec1 : SqlStmt → σ → Except SqlError σ) (commitOk : Bool) (ev : Event) (s0 : σ)
    (dbn usr pwd hst : String) (e : SqlError)
    (hdb : ev.resourceProperties.dbName = some dbn)
    (hus : ev.resourceProperties.username = some usr)
    (hpw : ev.resourceProperties.password = some pwd)
    (hho : ev.resourceProperties.host = some hst)
    (hrt : ev.requestType = "Create")
    (hfail : (runStmts exec1 ddlSequence s0).2 = Except.error e) :
    (create exec1 true commitOk ev s0).result = Except.error PyError.provisioningError ∧
    commitCount (create exec1 true commitOk ev s0).trace = 0 ∧
    (create exec1 true commitOk ev s0).dbFinal = s0 ∧
    Effect.cursorClosed ∈ (create exec1 true commitOk ev s0).trace ∧
    Effect.connClosed ∈ (create exec1 true commitOk ev s0).trace ∧
    (cfn_handler exec1 true commitOk ev s0).1 =
      { success := false, error := some ErrKind.provisioningError } := by
  have hcc := runStmts_commitCount exec1 ddlSequence s0
  refine ⟨?_, ?_, ?_, ?_, ?_, ?_⟩
  · simp [create, hdb, hus, hpw, hho, hfail]
  · simp [create, hdb, hus, hpw, hho, hfail, isCommit, hcc]
  · simp [create, hdb, hus, hpw, hho, hfail]
  · simp [create, hdb, hus, hpw, hho, hfail]
  · simp [create, hdb, hus, hpw, hho, hfail]
  · simp [cfn_handler, hrt, create, hdb, hus, hpw, hho, hfail, pyErrorToKind]

/-- Witness for C2: every statement fails with a permission error. -/
theorem create_ddl_failure_not_committed_witness :
    (create execAllFail true true evFull ()).result =
      Except.error PyError.provisioningError ∧
    commitCount (create execAllFail true true evFull ()).trace = 0 ∧
    (create execAllFail true true evFull ()).dbFinal = () ∧
    Effect.cursorClosed ∈ (create execAllFail true true evFull ()).trace ∧
    Effect.connClosed ∈ (create execAllFail true true evFull ()).trace ∧
    (cfn_handler execAllFail true true evFull ()).1 =
      { success := false, error := some ErrKind.provisioningError } :=
  create_ddl_failure_not_committed execAllFail true evFull () "gis" "admin" "secret"
    "db.example.internal" SqlError.permissionDenied rfl rfl rfl rfl rfl rfl

/-- C3: once the connection is established, `create` closes the cursor and
the connection on every exit path (success or failure of the statements and
of the commit). -/
theorem create_releases_connection {σ : Type}
    (exec1 : SqlStmt → σ → Except SqlError σ) (commitOk : Bool) (ev : Event) (s0 : σ)
    (dbn usr pwd hst : String)
    (hdb : ev.resourceProperties.dbName = some dbn)
    (hus : ev.resourceProperties.username = some usr)
    (hpw : ev.resourceProperties.password = some pwd)
    (hho : ev.resourceProperties.host = some hst) :
    Effect.connClosed ∈ (create exec1 true commitOk ev s0).trace ∧
    Effect.cursorClosed ∈ (create exec1 true commitOk ev s0).trace := by
  cases hrun : (runStmts exec1 ddlSequence s0).2 with
  | ok s1 => cases commitOk <;> simp [create, hdb, hus, hpw, hho, hrun]
  | error e => simp [create, hdb, hus, hpw, hho, hrun]

/-- Witness for C3: a run where the fourth statement fails. -/
theorem create_releases_connection_witness :
    Effect.connClosed ∈ (create execAllFail true true evFull ()).trace ∧
    Effect.cursorClosed ∈ (create execAllFail true true evFull ()).trace :=
  create_releases_connection execAllFail true evFull () "gis" "admin" "secret"
    "db.example.internal" rfl rfl rfl rfl

/-- C5: Update and Delete events succeed immediately, produce no effects
(in particular no connection attempt), and leave the database untouched. -/
theorem update_delete_noop {σ : Type}
    (exec1 : SqlStmt → σ → Except SqlError σ) (connectOk commitOk : Bool)
    (ev : Event) (s0 : σ)
    (hrt : ev.requestType = "Update" ∨ ev.requestType = "Delete") :
    (cfn_handler exec1 connectOk commitOk ev s0).1 =
      { success := true, error := none } ∧
    (cfn_handler exec1 connectOk commitOk ev s0).2.1 = [] ∧
    (cfn_handler exec1 connectOk commitOk ev s0).2.2 = s0 := by
  rcases hrt with h | h <;> simp [cfn_handler, h, update, delete]

/-- Witness for C5: a concrete Update event. -/
theorem update_delete_noop_witness :
    (cfn_handler execAllOk true true
        { requestType := "Update", resourceProperties := evFull.resourceProperties } ()).1 =
      { success := true, error := none } ∧
    (cfn_handler execAllOk true true
        { requestType := "Update", resourceProperties := evFull.resourceProperties } ()).2.1 = [] ∧
    (cfn_handler execAllOk true true
        { requestType := "Update", resourceProperties := evFull.resourceProperties } ()).2.2 = () :=
  update_delete_noop execAllOk true true
    { requestType := "Update", resourceProperties := evFull.resourceProperties } ()
    (Or.inl rfl)

/-- C6: if the connection cannot be established, `create` fails with
`ConnectionError`; the trace stops at the connection attempt — no cursor,
no executed statement, and no acquired connection to release — and the
dispatcher reports a failed result of the ConnectionError kind. -/
theorem create_connection_failure {σ : Type}
    (exec1 : SqlStmt → σ → Except SqlError σ) (commitOk : Bool) (ev : Event) (s0 : σ)
    (dbn usr pwd hst : String)
    (hdb : ev.resourceProperties.dbName = some dbn)
    (hus : ev.resourceProperties.username = some usr)
    (hpw : ev.resourceProperties.password = some pwd)
    (hho : ev.resourceProperties.host = some hst)
    (hrt : ev.requestType = "Create") :
    (create exec1 false commitOk ev s0).result = Except.error PyError.connectionError ∧
    (create exec1 false commitOk ev s0).trace =
      [Effect.printedEvent ev, Effect.connectAttempt dbn usr pwd hst] ∧
    Effect.cursorCreated ∉ (create exec1 false commitOk ev s0).trace ∧
    executedOf (create exec1 false commitOk ev s0).trace = [] ∧
    Effect.connClosed ∉ (create exec1 false commitOk ev s0).trace ∧
    (cfn_handler exec1 false commitOk ev s0).1 =
      { success := false, error := some ErrKind.connectionError } := by
  refine ⟨?_, ?_, ?_, ?_, ?_, ?_⟩ <;>
    simp [create, hdb, hus, hpw, hho, cfn_handler, hrt, isExecuted, pyErrorToKind]

/-- Witness for C6: connection refused at the concrete event. -/
theorem create_connection_failure_witness :
    (create execAllOk false true evFull ()).result =
      Except.error PyError.connectionError ∧
    (create execAllOk false true evFull ()).trace =
      [Effect.printedEvent evFull,
       Effect.connectAttempt "gis" "admin" "secret" "db.example.internal"] ∧
    Effect.cursorCreated ∉ (create execAllOk false true evFull ()).trace ∧
    executedOf (create execAllOk false true evFull ()).trace = [] ∧
    Effect.connClosed ∉ (create execAllOk false true evFull ()).trace ∧
    (cfn_handler execAllOk false true evFull ()).1 =
      { success := false, error := some ErrKind.connectionError } :=
  create_connection_failure execAllOk true evFull () "gis" "admin" "secret"
    "db.example.internal" rfl rfl rfl rfl rfl

/-- C7: an event whose operation kind is none of Create, Update, Delete is
reported as a failed result with `UnsupportedOperation`, with no handler
invoked (no effects, database untouched). -/
theorem unknown_kind_unsupported {σ : Type}
    (exec1 : SqlStmt → σ → Except SqlError σ) (connectOk commitOk : Bool)
    (ev : Event) (s0 : σ)
    (h1 : ev.requestType ≠ "Create") (h2 : ev.requestType ≠ "Update")
    (h3 : ev.requestType ≠ "Delete") :
    (cfn_handler exec1 connectOk commitOk ev s0).1 =
      { success := false, error := some ErrKind.unsupportedOperation } ∧
    (cfn_handler exec1 connectOk commitOk ev s0).2.1 = [] ∧
    (cfn_handler exec1 connectOk commitOk ev s0).2.2 = s0 := by
  simp [cfn_handler, h1, h2, h3]

/-- Witness for C7: the unknown kind "Replace". -/
theorem unknown_kind_unsupported_witness :
    (cfn_handler execAllOk true true
        { requestType := "Replace", resourceProperties := evFull.resourceProperties } ()).1 =
      { success := false, error := some ErrKind.unsupportedOperation } ∧
    (cfn_handler execAllOk true true
        { requestType := "Replace", resourceProperties := evFull.resourceProperties } ()).2.1 = [] ∧
    (cfn_handler execAllOk true true
        { requestType := "Replace", resourceProperties := evFull.resourceProperties } ()).2.2 = () :=
  unknown_kind_unsupported execAllOk true true
    { requestType := "Replace", resourceProperties := evFull.resourceProperties } ()
    (by decide) (by decide) (by decide)

/-- A Create event whose `DbName` key is absent. -/
def evNoDbName : Event :=
  { requestType := "Create"
    resourceProperties :=
      { dbName := none, username := some "admin",
        password := some "secret", host := some "db.example.internal" } }

/-- A Create event whose `Host` value is present but empty. -/
def evEmptyHost : Event :=
  { requestType := "Create"
    resourceProperties :=
      { dbName := some "gis", username := some "admin",
        password := some "secret", host := some "" } }

/-- C4 counterexample: with `DbName` missing, the reported failure kind is
ConnectionError — the `KeyError` is swallowed by the bare `except:` around
the connection block — not InvalidProperties; and with `Host` present but
empty, a connection attempt is made with the empty value instead of
failing fast. -/
theorem missing_property_reported_as_connection_error :
    (cfn_handler execAllOk true true evNoDbName ()).1.error =
      some ErrKind.connectionError ∧
    ErrKind.connectionError ≠ ErrKind.invalidProperties ∧
    Effect.connectAttempt "gis" "admin" "secret" "" ∈
      (create execAllOk true true evEmptyHost ()).trace := by
  refine ⟨by decide, by decide, by decide⟩

/-- C4 amended: `create` performs no property validation. If any of the four
resource properties is missing, the `KeyError` raised while evaluating the
connect arguments is re-raised as `ConnectionError` and no connection attempt
is made (the trace is just the event print); if all four are present — even
as empty strings — a connection attempt is made with those values. -/
theorem missing_or_empty_properties {σ : Type}
    (exec1 : SqlStmt → σ → Except SqlError σ) (connectOk commitOk : Bool)
    (ev : Event) (s0 : σ) :
    (ev.resourceProperties.dbName = none ∨ ev.resourceProperties.username = none ∨
     ev.resourceProperties.password = none ∨ ev.resourceProperties.host = none →
      (create exec1 connectOk commitOk ev s0).result =
        Except.error PyError.connectionError ∧
      (create exec1 connectOk commitOk ev s0).trace = [Effect.printedEvent ev]) ∧
    (∀ dbn usr pwd hst : String,
      ev.resourceProperties.dbName = some dbn →
      ev.resourceProperties.username = some usr →
      ev.resourceProperties.password = some pwd →
      ev.resourceProperties.host = some hst →
      Effect.connectAttempt dbn usr pwd hst ∈
        (create exec1 connectOk commitOk ev s0).trace) := by
  constructor
  · intro h
    rcases hd : ev.resourceProperties.dbName with _ | dbn <;>
      rcases hu : ev.resourceProperties.username with _ | usr <;>
      rcases hp : ev.resourceProperties.password with _ | pwd <;>
      rcases hh : ev.resourceProperties.host with _ | hst <;>
      simp_all [create]
  · intro dbn usr pwd hst hdb hus hpw hho
    cases connectOk with
    | false => simp [create, hdb, hus, hpw, hho]
    | true =>
      cases hrun : (runStmts exec1 ddlSequence s0).2 with
      | ok s1 => cases commitOk <;> simp [create, hdb, hus, hpw, hho, hrun]
      | error e => simp [create, hdb, hus, hpw, hho, hrun]

/-- Witness for the amended C4: the missing-key event and the empty-host
event. -/
theorem missing_or_empty_properties_witness :
    ((create execAllOk true true evNoDbName ()).result =
        Except.error PyError.connectionError ∧
      (create execAllOk true true evNoDbName ()).trace =
        [Effect.printedEvent evNoDbName]) ∧
    Effect.connectAttempt "gis" "admin" "secret" "" ∈
      (create execAllOk true true evEmptyHost ()).trace :=
  ⟨(missing_or_empty_properties execAllOk true true evNoDbName ()).1 (Or.inl rfl),
   (missing_or_empty_properties execAllOk true true evEmptyHost ()).2
     "gis" "admin" "secret" "" rfl rfl rfl rfl⟩

/-- The concrete event of `evFull` with a different password. -/
def evFull2 : Event :=
  { requestType := "Create"
    resourceProperties :=
      { dbName := some "gis", username := some "admin",
        password := some "hunter2", host := some "db.example.internal" } }

/-- C10: `print(event)` is the first effect of every `create` run — before
any connection attempt, on every execution path — and the printed event
carries the Password property verbatim, so the emitted output is not
independent of the secret: two events that differ only in the password
produce different outputs. -/
theorem create_prints_event_with_password :
    (∀ (σ : Type) (exec1 : SqlStmt → σ → Except SqlError σ)
       (connectOk commitOk : Bool) (ev : Event) (s0 : σ),
      ((create exec1 connectOk commitOk ev s0).trace).head? =
        some (Effect.printedEvent ev)) ∧
    (evFull.resourceProperties.password = some "secret" ∧
     evFull2.resourceProperties.password = some "hunter2" ∧
     evFull.requestType = evFull2.requestType ∧
     evFull.resourceProperties.dbName = evFull2.resourceProperties.dbName ∧
     evFull.resourceProperties.username = evFull2.resourceProperties.username ∧
     evFull.resourceProperties.host = evFull2.resourceProperties.host ∧
     (create execAllOk true true evFull ()).trace ≠
       (create execAllOk true true evFull2 ()).trace) := by
  constructor
  · intro σ exec1 connectOk commitOk ev s0
    rcases hd : ev.resourceProperties.dbName with _ | dbn <;>
      rcases hu : ev.resourceProperties.username with _ | usr <;>
      rcases hp : ev.resourceProperties.password with _ | pwd <;>
      rcases hh : ev.resourceProperties.host with _ | hst <;>
      cases connectOk <;>
      cases hrun : (runStmts exec1 ddlSequence s0).2 <;>
      cases commitOk <;>
      simp [create, hd, hu, hp, hh, hrun]
  · refine ⟨rfl, rfl, rfl, rfl, rfl, rfl, by decide⟩

/-! ### Catalog-level lemmas for the ownership claims -/

theorem reassignRel_owner (r : PgRel)
    (hn : (reassignRel r).nspname = "tiger" ∨ (reassignRel r).nspname = "topology")
    (hk : (reassignRel r).relkind ∈ ownedKinds) :
    (reassignRel r).relowner = "rds_superuser" := by
  by_cases hc : (r.nspname = "tiger" ∨ r.nspname = "topology") ∧ r.relkind ∈ ownedKinds
  · simp [reassignRel, hc]
  · simp [reassignRel, hc] at hn hk
    exact absurd ⟨hn, hk⟩ hc

theorem executed_mem_of_mem_executedOf (tr : List Effect) (st : SqlStmt)
    (h : st ∈ executedOf tr) : Effect.executed st ∈ tr := by
  obtain ⟨e, he, hee⟩ := List.mem_filterMap.mp h
  cases e with
  | executed st2 =>
    simp [isExecuted] at hee
    rwa [hee] at he
  | printedEvent ev => simp [isExecuted] at hee
  | connectAttempt a b c d => simp [isExecuted] at hee
  | cursorCreated => simp [isExecuted] at hee
  | execFailed st2 e2 => simp [isExecuted] at hee
  | committed => simp [isExecuted] at hee
  | cursorClosed => simp [isExecuted] at hee
  | connClosed => simp [isExecuted] at hee
  | printedSuccess => simp [isExecuted] at hee

theorem execStmt_alter_ok (cat : String → ExtensionDef) (s role : String) (d d2 : DbState)
    (h : execStmt cat (SqlStmt.alterSchemaOwner s role) d = Except.ok d2) :
    d2.schemaOwner s = some role ∧
    (∀ x, x ≠ s → d2.schemaOwner x = d.schemaOwner x) ∧
    d2.execDefined = d.execDefined ∧ d2.rels = d.rels := by
  simp only [execStmt] at h
  split at h
  · injection h with h2
    subst h2
    exact ⟨by simp, fun x hx => by simp [hx], rfl, rfl⟩
  · exact absurd h (by simp)

theorem execStmt_fn_ok (cat : String → ExtensionDef) (d d2 : DbState)
    (h : execStmt cat SqlStmt.createExecFunction d = Except.ok d2) :
    d2.execDefined = true ∧ d2.schemaOwner = d.schemaOwner ∧ d2.rels = d.rels := by
  simp only [execStmt] at h
  split at h
  · exact absurd h (by simp)
  · injection h with h2
    subst h2
    exact ⟨rfl, rfl, rfl⟩

theorem execStmt_reassign_ok (cat : String → ExtensionDef) (d d2 : DbState)
    (h : execStmt cat SqlStmt.reassignRelOwners d = Except.ok d2) :
    d2.rels = d.rels.map reassignRel ∧ d2.schemaOwner = d.schemaOwner ∧
    d2.execDefined = d.execDefined := by
  simp only [execStmt] at h
  split at h
  · injection h with h2
    subst h2
    exact ⟨rfl, rfl, rfl⟩
  · exact absurd h (by simp)

theorem runStmts_last5_ownership (cat : String → ExtensionDef) (sm s1 : DbState)
    (h : (runStmts (execStmt cat)
        [SqlStmt.alterSchemaOwner "tiger" "rds_superuser",
         SqlStmt.alterSchemaOwner "tiger_data" "rds_superuser",
         SqlStmt.alterSchemaOwner "topology" "rds_superuser",
         SqlStmt.createExecFunction,
         SqlStmt.reassignRelOwners] sm).2 = Except.ok s1) :
    s1.schemaOwner "tiger" = some "rds_superuser" ∧
    s1.schemaOwner "tiger_data" = some "rds_superuser" ∧
    s1.schemaOwner "topology" = some "rds_superuser" ∧
    s1.execDefined = true ∧
    ∀ r ∈ s1.rels, (r.nspname = "tiger" ∨ r.nspname = "topology") →
      r.relkind ∈ ownedKinds → r.relowner = "rds_superuser" := by
  cases h5 : execStmt cat (SqlStmt.alterSchemaOwner "tiger" "rds_superuser") sm with
  | error e => simp [runStmts, h5] at h
  | ok d5 =>
    cases h6 : execStmt cat (SqlStmt.alterSchemaOwner "tiger_data" "rds_superuser") d5 with
    | error e => simp [runStmts, h5, h6] at h
    | ok d6 =>
      cases h7 : execStmt cat (SqlStmt.alterSchemaOwner "topology" "rds_superuser") d6 with
      | error e => simp [runStmts, h5, h6, h7] at h
      | ok d7 =>
        cases h8 : execStmt cat SqlStmt.createExecFunction d7 with
        | error e => simp [runStmts, h5, h6, h7, h8] at h
        | ok d8 =>
          cases h9 : execStmt cat SqlStmt.reassignRelOwners d8 with
          | error e => simp [runStmts, h5, h6, h7, h8, h9] at h
          | ok d9 =>
            have hs1 : d9 = s1 := by
              simpa [runStmts, h5, h6, h7, h8, h9] using h
            subst hs1
            obtain ⟨h5a, h5b, _, _⟩ := execStmt_alter_ok cat _ _ _ _ h5
            obtain ⟨h6a, h6b, _, _⟩ := execStmt_alter_ok cat _ _ _ _ h6
            obtain ⟨h7a, h7b, _, _⟩ := execStmt_alter_ok cat _ _ _ _ h7
            obtain ⟨h8a, h8b, h8c⟩ := execStmt_fn_ok cat _ _ h8
            obtain ⟨h9a, h9b, h9c⟩ := execStmt_reassign_ok cat _ _ h9
            refine ⟨?_, ?_, ?_, ?_, ?_⟩
            · rw [h9b, h8b, h7b _ (by decide), h6b _ (by decide), h5a]
            · rw [h9b, h8b, h7b _ (by decide), h6a]
            · rw [h9b, h8b, h7a]
            · rw [h9c, h8a]
            · intro r hr hn hk
              rw [h9a] at hr
              obtain ⟨r0, hr0, rfl⟩ := List.mem_map.mp hr
              exact reassignRel_owner r0 hn hk

/-- C8: whenever a Create run over the catalog semantics succeeds, the
final (committed) database has the `tiger`, `tiger_data` and `topology`
schemas owned by `rds_superuser`; the dynamic-SQL helper was defined and
its ownership enumeration executed; and every table, sequence and view in
the `tiger` and `topology` schemas is owned by `rds_superuser`. -/
theorem create_success_reassigns_ownership
    (cat : String → ExtensionDef) (commitOk : Bool) (ev : Event) (d0 : DbState)
    (dbn usr pwd hst : String)
    (hdb : ev.resourceProperties.dbName = some dbn)
    (hus : ev.resourceProperties.username = some usr)
    (hpw : ev.resourceProperties.password = some pwd)
    (hho : ev.resourceProperties.host = some hst)
    (hok : (create (execStmt cat) true commitOk ev d0).result = Except.ok ()) :
    ((create (execStmt cat) true commitOk ev d0).dbFinal).schemaOwner "tiger" =
      some "rds_superuser" ∧
    ((create (execStmt cat) true commitOk ev d0).dbFinal).schemaOwner "tiger_data" =
      some "rds_superuser" ∧
    ((create (execStmt cat) true commitOk ev d0).dbFinal).schemaOwner "topology" =
      some "rds_superuser" ∧
    ((create (execStmt cat) true commitOk ev d0).dbFinal).execDefined = true ∧
    Effect.executed SqlStmt.createExecFunction ∈
      (create (execStmt cat) true commitOk ev d0).trace ∧
    Effect.executed SqlStmt.reassignRelOwners ∈
      (create (execStmt cat) true commitOk ev d0).trace ∧
    ∀ r ∈ ((create (execStmt cat) true commitOk ev d0).dbFinal).rels,
      (r.nspname = "tiger" ∨ r.nspname = "topology") →
      r.relkind ∈ ownedKinds → r.relowner = "rds_superuser" := by
  cases hrun : (runStmts (execStmt cat) ddlSequence d0).2 with
  | error e => exact absurd hok (by simp [create, hdb, hus, hpw, hho, hrun])
  | ok s1 =>
    cases commitOk with
    | false => exact absurd hok (by simp [create, hdb, hus, hpw, hho, hrun])
    | true =>
      have hdbf : (create (execStmt cat) true true ev d0).dbFinal = s1 := by
        simp [create, hdb, hus, hpw, hho, hrun]
      have hrun2 : (runStmts (execStmt cat)
          ([SqlStmt.createExtension "postgis", SqlStmt.createExtension "fuzzystrmatch",
            SqlStmt.createExtension "postgis_tiger_geocoder",
            SqlStmt.createExtension "postgis_topology"] ++
           [SqlStmt.alterSchemaOwner "tiger" "rds_superuser",
            SqlStmt.alterSchemaOwner "tiger_data" "rds_superuser",
            SqlStmt.alterSchemaOwner "topology" "rds_superuser",
            SqlStmt.createExecFunction, SqlStmt.reassignRelOwners]) d0).2 =
          Except.ok s1 := hrun
      obtain ⟨sm, h14, h59⟩ := runStmts_append_ok (execStmt cat) _ _ d0 s1 hrun2
      obtain ⟨ha, hb, hc, hd, he⟩ := runStmts_last5_ownership cat sm s1 h59
      have hexeTr : executedOf (create (execStmt cat) true true ev d0).trace = ddlSequence := by
        have hx : executedOf (runStmts (execStmt cat) ddlSequence d0).1 = ddlSequence :=
          (runStmts_ok_iff _ ddlSequence d0).mp ⟨s1, hrun⟩
        simp [create, hdb, hus, hpw, hho, hrun, isExecuted, hx]
      have hm1 : Effect.executed SqlStmt.createExecFunction ∈
          (create (execStmt cat) true true ev d0).trace :=
        executed_mem_of_mem_executedOf _ _ (by rw [hexeTr]; decide)
      have hm2 : Effect.executed SqlStmt.reassignRelOwners ∈
          (create (execStmt cat) true true ev d0).trace :=
        executed_mem_of_mem_executedOf _ _ (by rw [hexeTr]; decide)
      rw [hdbf]
      exact ⟨ha, hb, hc, hd, hm1, hm2, he⟩

/-- The catalog contributions of the extensions in the witness database:
the tiger geocoder brings the `tiger` and `tiger_data` schemas with a table
and a sequence, the topology extension brings the `topology` schema with a
table and a view. -/
def catW : String → ExtensionDef :=
  fun name =>
    if name = "postgis_tiger_geocoder" then
      { newSchemas := fun x =>
          if x = "tiger" then some "admin"
          else if x = "tiger_data" then some "admin" else none
        newRels := [{ nspname := "tiger", relname := "geocode_settings",
                      relkind := 'r', relowner := "admin" },
                    { nspname := "tiger", relname := "county_id_seq",
                      relkind := 'S', relowner := "admin" }] }
    else if name = "postgis_topology" then
      { newSchemas := fun x => if x = "topology" then some "admin" else none
        newRels := [{ nspname := "topology", relname := "layer",
                      relkind := 'r', relowner := "admin" },
                    { nspname := "topology", relname := "topology_summary",
                      relkind := 'v', relowner := "admin" }] }
    else { newSchemas := fun _ => none, newRels := [] }

/-- A fresh, empty database. -/
def dbEmpty : DbState :=
  { extensions := [], schemaOwner := fun _ => none, rels := [], execDefined := false }

/-- Witness for C8: the end-to-end run against the fresh database. -/
theorem create_success_reassigns_ownership_witness :
    ((create (execStmt catW) true true evFull dbEmpty).dbFinal).schemaOwner "tiger" =
      some "rds_superuser" ∧
    ((create (execStmt catW) true true evFull dbEmpty).dbFinal).schemaOwner "tiger_data" =
      some "rds_superuser" ∧
    ((create (execStmt catW) true true evFull dbEmpty).dbFinal).schemaOwner "topology" =
      some "rds_superuser" ∧
    ((create (execStmt catW) true true evFull dbEmpty).dbFinal).execDefined = true ∧
    Effect.executed SqlStmt.createExecFunction ∈
      (create (execStmt catW) true true evFull dbEmpty).trace ∧
    Effect.executed SqlStmt.reassignRelOwners ∈
      (create (execStmt catW) true true evFull dbEmpty).trace ∧
    ∀ r ∈ ((create (execStmt catW) true true evFull dbEmpty).dbFinal).rels,
      (r.nspname = "tiger" ∨ r.nspname = "topology") →
      r.relkind ∈ ownedKinds → r.relowner = "rds_superuser" :=
  create_success_reassigns_ownership catW true evFull dbEmpty "gis" "admin" "secret"
    "db.example.internal" rfl rfl rfl rfl rfl

/-- C9: against a database where the postgis extension is already
installed, the first `CREATE EXTENSION` statement (no `IF NOT EXISTS`)
fails with extension-exists; `create` raises `ProvisioningError`, nothing
is committed, no statement succeeds, and the dispatcher reports a failed
result — the failure is not silently absorbed. -/
theorem create_already_provisioned_fails
    (cat : String → ExtensionDef) (commitOk : Bool) (ev : Event) (d0 : DbState)
    (dbn usr pwd hst : String)
    (hdb : ev.resourceProperties.dbName = some dbn)
    (hus : ev.resourceProperties.username = some usr)
    (hpw : ev.resourceProperties.password = some pwd)
    (hho : ev.resourceProperties.host = some hst)
    (hrt : ev.requestType = "Create")
    (hext : "postgis" ∈ d0.extensions) :
    (create (execStmt cat) true commitOk ev d0).result =
      Except.error PyError.provisioningError ∧
    Effect.execFailed (SqlStmt.createExtension "postgis") SqlError.extensionExists ∈
      (create (execStmt cat) true commitOk ev d0).trace ∧
    executedOf (create (execStmt cat) true commitOk ev d0).trace = [] ∧
    commitCount (create (execStmt cat) true commitOk ev d0).trace = 0 ∧
    (create (execStmt cat) true commitOk ev d0).dbFinal = d0 ∧
    (cfn_handler (execStmt cat) true commitOk ev d0).1 =
      { success := false, error := some ErrKind.provisioningError } := by
  have hfail : (runStmts (execStmt cat) ddlSequence d0).2 =
      Except.error SqlError.extensionExists := by
    simp [ddlSequence, runStmts, execStmt, hext]
  have htr : (runStmts (execStmt cat) ddlSequence d0).1 =
      [Effect.execFailed (SqlStmt.createExtension "postgis") SqlError.extensionExists] := by
    simp [ddlSequence, runStmts, execStmt, hext]
  refine ⟨?_, ?_, ?_, ?_, ?_, ?_⟩
  · simp [create, hdb, hus, hpw, hho, hfail]
  · simp [create, hdb, hus, hpw, hho, hfail, htr]
  · simp [create, hdb, hus, hpw, hho, hfail, htr, isExecuted]
  · simp [create, hdb, hus, hpw, hho, hfail, htr, isCommit]
  · simp [create, hdb, hus, hpw, hho, hfail]
  · simp [cfn_handler, hrt, create, hdb, hus, hpw, hho, hfail, pyErrorToKind]

/-- A database that already has postgis installed. -/
def dbProvisioned : DbState :=
  { extensions := ["postgis"], schemaOwner := fun _ => none, rels := [],
    execDefined := false }

/-- Witness for C9: re-running Create against the provisioned database. -/
theorem create_already_provisioned_fails_witness :
    (create (execStmt catW) true true evFull dbProvisioned).result =
      Except.error PyError.provisioningError ∧
    Effect.execFailed (SqlStmt.createExtension "postgis") SqlError.extensionExists ∈
      (create (execStmt catW) true true evFull dbProvisioned).trace ∧
    executedOf (create (execStmt catW) true true evFull dbProvisioned).trace = [] ∧
    commitCount (create (execStmt catW) true true evFull dbProvisioned).trace = 0 ∧
    (create (execStmt catW) true true evFull dbProvisioned).dbFinal = dbProvisioned ∧
    (cfn_handler (execStmt catW) true true evFull dbProvisioned).1 =
      { success := false, error := some ErrKind.provisioningError } :=
  create_already_provisioned_fails catW true evFull dbProvisioned "gis" "admin"
    "secret" "db.example.internal" rfl rfl rfl rfl rfl (by decide)
